import Mathlib

/-
Verification of the external benchmark scripts:
  src/benches/benchmarks/external_process.py
  src/external/clock.py
  src/external/fib.py

Each script is a read-eval-print loop: read a line from stdin, parse it as
an integer iteration count, run a workload that many times bracketed by two
monotonic-clock samples, print the elapsed nanoseconds, and (in two of the
three scripts) flush stdout.

Modelling choices (shallow embedding):
  - stdin is a finite list of lines (without trailing newline); stdout and
    the workload executions are recorded in an event trace.
  - the monotonic clock is an oracle, a function from a read index to a
    timestamp; each script consumes successive indices in program order.
    float timestamps (time.perf_counter, time.monotonic) are modelled as
    exact rationals; clock_gettime timestamps as integer timespec pairs.
  - process exit: PExit.ok models falling off the end of the script
    (exit code 0); PExit.parseError models an uncaught ValueError from
    int(); PExit.eofError models an uncaught EOFError from input().
    Any uncaught Python exception terminates the process with exit code 1.
-/

namespace Bench

/-- Models Python str.strip's whitespace test for the ASCII whitespace
characters. Python also strips other Unicode whitespace; no script input
in the claims uses those. -/
def isPySpace (c : Char) : Bool :=
  c = ' ' || c = '\t' || c = '\n' || c = '\r' || c = '\x0b' || c = '\x0c'

/-- Strip leading and trailing whitespace from a character list. -/
def pyStripChars (cs : List Char) : List Char :=
  ((cs.dropWhile isPySpace).reverse.dropWhile isPySpace).reverse

/-- Value of a list of decimal digit characters. -/
def digitsVal (cs : List Char) : Nat :=
  cs.foldl (fun a c => a * 10 + (c.toNat - 48)) 0

/-- Parse a nonempty all-digit character list; none otherwise. -/
def parseDigits (cs : List Char) : Option Nat :=
  if !cs.isEmpty && cs.all Char.isDigit then some (digitsVal cs) else none

/-- Models Python int(s) for base 10: strip surrounding whitespace, accept an
optional single sign followed by a nonempty digit string; any other input
raises ValueError (modelled as none). Python additionally accepts underscore
digit separators and non-ASCII decimal digits; no script input in the claims
uses those. -/
def pyParseInt (s : String) : Option Int :=
  match pyStripChars s.toList with
  | [] => none
  | c :: cs =>
    if c = '+' then (parseDigits cs).map (fun m => (m : Int))
    else if c = '-' then (parseDigits cs).map (fun m => -(m : Int))
    else (parseDigits (c :: cs)).map (fun m => (m : Int))

/-- Models Python int(x) on a real value: truncation toward zero.
On a rational num/den (den positive) this is truncating integer division. -/
def pyTrunc (q : ℚ) : Int :=
  q.num.tdiv q.den

/-- Models the ctypes timespec structure of clock.py: tv_sec seconds plus
tv_nsec nanoseconds. ctypes c_long fields are read back as unbounded Python
integers, so the fields are modelled as integers. -/
structure Timespec where
  tv_sec : Int
  tv_nsec : Int
deriving DecidableEq

/-- Total nanosecond value encoded by a timespec. -/
def Timespec.toNs (t : Timespec) : Int :=
  t.tv_sec * 1000000000 + t.tv_nsec

/-- Observable events of one script process, in program order: a line read
from stdin, one workload execution, a line written to stdout (its payload,
without the newline), a flush of stdout. -/
inductive Event
  | read (line : String)
  | work
  | write (line : String)
  | flush
deriving DecidableEq

/-- Process exit cause. ok: the script ran off its end (exit code 0).
parseError: uncaught ValueError from int() on a malformed line.
eofError: uncaught EOFError from input() at end of stream.
Uncaught exceptions exit with code 1. -/
inductive PExit
  | ok
  | parseError
  | eofError
deriving DecidableEq

/-- Process exit code: 0 for a clean exit, 1 for an uncaught exception. -/
def PExit.code : PExit → Nat
  | .ok => 0
  | .parseError => 1
  | .eofError => 1

/-- Number of write events (output lines produced) in a trace. -/
def writeCount : List Event → Nat
  | [] => 0
  | Event.write _ :: rest => writeCount rest + 1
  | _ :: rest => writeCount rest

/-- Payloads of the write events of a trace, in order. -/
def writesOf : List Event → List String
  | [] => []
  | Event.write s :: rest => s :: writesOf rest
  | _ :: rest => writesOf rest

/-- Number of workload executions in a trace. -/
def workCount : List Event → Nat
  | [] => 0
  | Event.work :: rest => workCount rest + 1
  | _ :: rest => workCount rest

/-- True when a flush occurs before the next read event (or the trace ends
with no further read). -/
def flushBeforeRead : List Event → Bool
  | [] => true
  | Event.flush :: _ => true
  | Event.read _ :: _ => false
  | _ :: rest => flushBeforeRead rest

/-- True when every write event in the trace is flushed before the next
read event. -/
def writesFlushed : List Event → Bool
  | [] => true
  | Event.write _ :: rest => flushBeforeRead rest && writesFlushed rest
  | _ :: rest => writesFlushed rest

/-- The fibonacci function of external_process.py on natural arguments:
f(0) = f(1) = 1, else f(n-1) + f(n-2). On negative arguments the Python
function recurses without reaching a base case (see fibonacciFuel). -/
def fibonacci : Nat → Nat
  | 0 => 1
  | 1 => 1
  | n + 2 => fibonacci (n + 1) + fibonacci n

/-- Fuel-indexed evaluator of the fibonacci function of external_process.py
on arbitrary integer arguments, mirroring the Python recursion exactly:
none models exhaustion of the fuel bound (non-termination in the limit). -/
def fibonacciFuel : Nat → Int → Option Int
  | 0, _ => none
  | fuel + 1, n =>
    if n = 0 ∨ n = 1 then some 1
    else
      match fibonacciFuel fuel (n - 1), fibonacciFuel fuel (n - 2) with
      | some a, some b => some (a + b)
      | _, _ => none

/-- The fib function of fib.py: fib(n-1) + fib(n-2) if n > 1 else n + 1.
The n <= 1 base case catches every small and negative argument, so the
function is total on the integers. -/
def fib (n : Int) : Int :=
  if h : n > 1 then fib (n - 1) + fib (n - 2) else n + 1
termination_by n.toNat
decreasing_by
  · omega
  · omega

/-- Fuel-indexed evaluator of the fib function of fib.py, mirroring the
Python recursion exactly. -/
def fibFuel : Nat → Int → Option Int
  | 0, _ => none
  | fuel + 1, n =>
    if n > 1 then
      match fibFuel fuel (n - 1), fibFuel fuel (n - 2) with
      | some a, some b => some (a + b)
      | _, _ => none
    else some (n + 1)

/-- Time unit constants of external_process.py. -/
def MILLIS : Int := 1000

/-- MICROS = MILLIS * 1000. -/
def MICROS : Int := MILLIS * 1000

/-- NANOS = MICROS * 1000. -/
def NANOS : Int := MICROS * 1000

/-- Reported value of one external_process.py cycle from the two
time.perf_counter samples s (before the loop) and e (after):
nanos = int(delta * NANOS) with delta = end - start. -/
def epValue (s e : ℚ) : Int :=
  pyTrunc ((e - s) * (NANOS : ℚ))

/-- Reported value of one clock.py cycle from the two clock_gettime samples:
secs * 1000000000 + nsecs with secs = end.tv_sec - start.tv_sec and
nsecs = end.tv_nsec - start.tv_nsec, in exact Python integer arithmetic. -/
def clockValue (s e : Timespec) : Int :=
  (e.tv_sec - s.tv_sec) * 1000000000 + (e.tv_nsec - s.tv_nsec)

/-- Reported value of one fib.py cycle from the two time.monotonic samples:
int(1e9 * (end - start)). -/
def fibValue (s e : ℚ) : Int :=
  pyTrunc (1000000000 * (e - s))

/-- Events of one external_process.py cycle after the read: iters.toNat
executions of fibonacci(depth) (range of a negative count is empty),
bracketed by perf_counter samples at clock indices idx and idx + 1, then
one output line and a flush. -/
def epCycle (c : Nat → ℚ) (idx : Nat) (iters : Int) : List Event :=
  List.replicate iters.toNat Event.work ++
    [Event.write (toString (epValue (c idx) (c (idx + 1)))), Event.flush]

/-- Events of one clock.py cycle after the read: the workload itself is a
clock_gettime call, so the start sample is index idx, the iters.toNat dummy
samples occupy the next indices, and the end sample is index
idx + iters.toNat + 1; then one output line and a flush. -/
def clockCycle (c : Nat → Timespec) (idx : Nat) (iters : Int) : List Event :=
  List.replicate iters.toNat Event.work ++
    [Event.write (toString (clockValue (c idx) (c (idx + iters.toNat + 1)))),
     Event.flush]

/-- Events of one fib.py cycle after the read: iters.toNat executions of
fib(n), monotonic samples at clock indices idx and idx + 1, then one output
line. fib.py does not flush stdout. -/
def fibCycle (c : Nat → ℚ) (idx : Nat) (iters : Int) : List Event :=
  List.replicate iters.toNat Event.work ++
    [Event.write (toString (fibValue (c idx) (c (idx + 1))))]

/-- The benchmark() loop of external_process.py: for line in sys.stdin,
parse int(line.strip()), run the timed cycle, print, flush. When stdin is
exhausted the for loop ends, benchmark() returns and the process exits
cleanly. depth is int(sys.argv[1]), fixed for the process lifetime; its
value is the fibonacci argument and does not affect the trace (assumed
non-negative so that fibonacci terminates, cf. fibonacciFuel). -/
def runEP (c : Nat → ℚ) (depth : Nat) : List String → Nat → List Event × PExit
  | [], _ => ([], PExit.ok)
  | line :: rest, idx =>
    match pyParseInt line with
    | none => ([Event.read line], PExit.parseError)
    | some iters =>
      let r := runEP c depth rest (idx + 2)
      (Event.read line :: (epCycle c idx iters ++ r.1), r.2)

/-- The while True loop of clock.py: iters = int(input()), then the timed
cycle of clock_gettime calls, print, flush. At end of stream input()
raises EOFError, which is uncaught, so the process exits with code 1. -/
def runClock (c : Nat → Timespec) : List String → Nat → List Event × PExit
  | [], _ => ([], PExit.eofError)
  | line :: rest, idx =>
    match pyParseInt line with
    | none => ([Event.read line], PExit.parseError)
    | some iters =>
      let r := runClock c rest (idx + iters.toNat + 2)
      (Event.read line :: (clockCycle c idx iters ++ r.1), r.2)

/-- The while True loop of fib.py: iters = int(input()), the timed cycle of
fib(n) calls, print without flush. n is int(sys.argv[1]); fib is total on
the integers, so n does not affect the trace. At end of stream input()
raises EOFError, which is uncaught, so the process exits with code 1. -/
def runFib (c : Nat → ℚ) (n : Int) : List String → Nat → List Event × PExit
  | [], _ => ([], PExit.eofError)
  | line :: rest, idx =>
    match pyParseInt line with
    | none => ([Event.read line], PExit.parseError)
    | some iters =>
      let r := runFib c n rest (idx + 2)
      (Event.read line :: (fibCycle c idx iters ++ r.1), r.2)

lemma writeCount_append (a b : List Event) :
    writeCount (a ++ b) = writeCount a + writeCount b := by
  induction a with
  | nil => simp [writeCount]
  | cons x rest ih => cases x <;> simp [writeCount, ih] <;> try omega

lemma writesOf_append (a b : List Event) :
    writesOf (a ++ b) = writesOf a ++ writesOf b := by
  induction a with
  | nil => simp [writesOf]
  | cons x rest ih => cases x <;> simp [writesOf, ih]

lemma workCount_append (a b : List Event) :
    workCount (a ++ b) = workCount a + workCount b := by
  induction a with
  | nil => simp [workCount]
  | cons x rest ih => cases x <;> simp [workCount, ih] <;> try omega

lemma writesOf_replicate_work (k : Nat) :
    writesOf (List.replicate k Event.work) = [] := by
  induction k with
  | zero => rfl
  | succ k ih => simp [List.replicate_succ, writesOf, ih]

lemma workCount_replicate_work (k : Nat) :
    workCount (List.replicate k Event.work) = k := by
  induction k with
  | zero => rfl
  | succ k ih => simp [List.replicate_succ, workCount, ih]

lemma writesFlushed_replicate_work (k : Nat) (l : List Event) :
    writesFlushed (List.replicate k Event.work ++ l) = writesFlushed l := by
  induction k with
  | zero => rfl
  | succ k ih => simp [List.replicate_succ, writesFlushed, ih]

lemma writesOf_epCycle (c : Nat → ℚ) (idx : Nat) (iters : Int) :
    writesOf (epCycle c idx iters) =
      [toString (epValue (c idx) (c (idx + 1)))] := by
  simp [epCycle, writesOf_append, writesOf_replicate_work, writesOf]

lemma writesOf_clockCycle (c : Nat → Timespec) (idx : Nat) (iters : Int) :
    writesOf (clockCycle c idx iters) =
      [toString (clockValue (c idx) (c (idx + iters.toNat + 1)))] := by
  simp [clockCycle, writesOf_append, writesOf_replicate_work, writesOf]

lemma writesOf_fibCycle (c : Nat → ℚ) (idx : Nat) (iters : Int) :
    writesOf (fibCycle c idx iters) =
      [toString (fibValue (c idx) (c (idx + 1)))] := by
  simp [fibCycle, writesOf_append, writesOf_replicate_work, writesOf]

lemma workCount_epCycle (c : Nat → ℚ) (idx : Nat) (iters : Int) :
    workCount (epCycle c idx iters) = iters.toNat := by
  simp [epCycle, workCount_append, workCount_replicate_work, workCount]

lemma workCount_clockCycle (c : Nat → Timespec) (idx : Nat) (iters : Int) :
    workCount (clockCycle c idx iters) = iters.toNat := by
  simp [clockCycle, workCount_append, workCount_replicate_work, workCount]

lemma workCount_fibCycle (c : Nat → ℚ) (idx : Nat) (iters : Int) :
    workCount (fibCycle c idx iters) = iters.toNat := by
  simp [fibCycle, workCount_append, workCount_replicate_work, workCount]

lemma writeCount_epCycle (c : Nat → ℚ) (idx : Nat) (iters : Int) :
    writeCount (epCycle c idx iters) = 1 := by
  simp [epCycle, writeCount_append, writeCount]
  induction iters.toNat with
  | zero => rfl
  | succ k ih => simp [List.replicate_succ, writeCount, ih]

lemma writeCount_clockCycle (c : Nat → Timespec) (idx : Nat) (iters : Int) :
    writeCount (clockCycle c idx iters) = 1 := by
  simp [clockCycle, writeCount_append, writeCount]
  induction iters.toNat with
  | zero => rfl
  | succ k ih => simp [List.replicate_succ, writeCount, ih]

lemma writeCount_fibCycle (c : Nat → ℚ) (idx : Nat) (iters : Int) :
    writeCount (fibCycle c idx iters) = 1 := by
  simp [fibCycle, writeCount_append, writeCount]
  induction iters.toNat with
  | zero => rfl
  | succ k ih => simp [List.replicate_succ, writeCount, ih]

lemma runEP_cons_some (c : Nat → ℚ) (depth : Nat) (line : String)
    (rest : List String) (idx : Nat) (iters : Int)
    (h : pyParseInt line = some iters) :
    runEP c depth (line :: rest) idx =
      (Event.read line :: (epCycle c idx iters ++ (runEP c depth rest (idx + 2)).1),
       (runEP c depth rest (idx + 2)).2) := by
  simp [runEP, h]

lemma runClock_cons_some (c : Nat → Timespec) (line : String)
    (rest : List String) (idx : Nat) (iters : Int)
    (h : pyParseInt line = some iters) :
    runClock c (line :: rest) idx =
      (Event.read line ::
        (clockCycle c idx iters ++ (runClock c rest (idx + iters.toNat + 2)).1),
       (runClock c rest (idx + iters.toNat + 2)).2) := by
  simp [runClock, h]

lemma runFib_cons_some (c : Nat → ℚ) (n : Int) (line : String)
    (rest : List String) (idx : Nat) (iters : Int)
    (h : pyParseInt line = some iters) :
    runFib c n (line :: rest) idx =
      (Event.read line :: (fibCycle c idx iters ++ (runFib c n rest (idx + 2)).1),
       (runFib c n rest (idx + 2)).2) := by
  simp [runFib, h]

lemma runEP_cons_none (c : Nat → ℚ) (depth : Nat) (line : String)
    (rest : List String) (idx : Nat) (h : pyParseInt line = none) :
    runEP c depth (line :: rest) idx = ([Event.read line], PExit.parseError) := by
  simp [runEP, h]

lemma runClock_cons_none (c : Nat → Timespec) (line : String)
    (rest : List String) (idx : Nat) (h : pyParseInt line = none) :
    runClock c (line :: rest) idx = ([Event.read line], PExit.parseError) := by
  simp [runClock, h]

lemma runFib_cons_none (c : Nat → ℚ) (n : Int) (line : String)
    (rest : List String) (idx : Nat) (h : pyParseInt line = none) :
    runFib c n (line :: rest) idx = ([Event.read line], PExit.parseError) := by
  simp [runFib, h]

lemma runEP_exit (c : Nat → ℚ) (depth : Nat) (lines : List String) (idx : Nat)
    (h : ∀ l ∈ lines, (pyParseInt l).isSome = true) :
    (runEP c depth lines idx).2 = PExit.ok := by
  induction lines generalizing idx with
  | nil => rfl
  | cons line rest ih =>
    obtain ⟨iters, hline⟩ :=
      Option.isSome_iff_exists.mp (h line (List.mem_cons_self _ _))
    rw [runEP_cons_some c depth line rest idx iters hline]
    exact ih (idx + 2) (fun l hl => h l (List.mem_cons_of_mem _ hl))

lemma runClock_exit (c : Nat → Timespec) (lines : List String) (idx : Nat)
    (h : ∀ l ∈ lines, (pyParseInt l).isSome = true) :
    (runClock c lines idx).2 = PExit.eofError := by
  induction lines generalizing idx with
  | nil => rfl
  | cons line rest ih =>
    obtain ⟨iters, hline⟩ :=
      Option.isSome_iff_exists.mp (h line (List.mem_cons_self _ _))
    rw [runClock_cons_some c line rest idx iters hline]
    exact ih (idx + iters.toNat + 2) (fun l hl => h l (List.mem_cons_of_mem _ hl))

lemma runFib_exit (c : Nat → ℚ) (n : Int) (lines : List String) (idx : Nat)
    (h : ∀ l ∈ lines, (pyParseInt l).isSome = true) :
    (runFib c n lines idx).2 = PExit.eofError := by
  induction lines generalizing idx with
  | nil => rfl
  | cons line rest ih =>
    obtain ⟨iters, hline⟩ :=
      Option.isSome_iff_exists.mp (h line (List.mem_cons_self _ _))
    rw [runFib_cons_some c n line rest idx iters hline]
    exact ih (idx + 2) (fun l hl => h l (List.mem_cons_of_mem _ hl))

lemma writeCount_runEP (c : Nat → ℚ) (depth : Nat) (lines : List String)
    (idx : Nat) (h : ∀ l ∈ lines, (pyParseInt l).isSome = true) :
    writeCount (runEP c depth lines idx).1 = lines.length := by
  induction lines generalizing idx with
  | nil => rfl
  | cons line rest ih =>
    obtain ⟨iters, hline⟩ :=
      Option.isSome_iff_exists.mp (h line (List.mem_cons_self _ _))
    rw [runEP_cons_some c depth line rest idx iters hline]
    simp [writeCount, writeCount_append, writeCount_epCycle,
      ih (idx + 2) (fun l hl => h l (List.mem_cons_of_mem _ hl))]
    omega

lemma writeCount_runClock (c : Nat → Timespec) (lines : List String)
    (idx : Nat) (h : ∀ l ∈ lines, (pyParseInt l).isSome = true) :
    writeCount (runClock c lines idx).1 = lines.length := by
  induction lines generalizing idx with
  | nil => rfl
  | cons line rest ih =>
    obtain ⟨iters, hline⟩ :=
      Option.isSome_iff_exists.mp (h line (List.mem_cons_self _ _))
    rw [runClock_cons_some c line rest idx iters hline]
    simp [writeCount, writeCount_append, writeCount_clockCycle,
      ih (idx + iters.toNat + 2) (fun l hl => h l (List.mem_cons_of_mem _ hl))]
    omega

lemma writeCount_runFib (c : Nat → ℚ) (n : Int) (lines : List String)
    (idx : Nat) (h : ∀ l ∈ lines, (pyParseInt l).isSome = true) :
    writeCount (runFib c n lines idx).1 = lines.length := by
  induction lines generalizing idx with
  | nil => rfl
  | cons line rest ih =>
    obtain ⟨iters, hline⟩ :=
      Option.isSome_iff_exists.mp (h line (List.mem_cons_self _ _))
    rw [runFib_cons_some c n line rest idx iters hline]
    simp [writeCount, writeCount_append, writeCount_fibCycle,
      ih (idx + 2) (fun l hl => h l (List.mem_cons_of_mem _ hl))]
    omega

lemma writesFlushed_runEP (c : Nat → ℚ) (depth : Nat) (lines : List String)
    (idx : Nat) : writesFlushed (runEP c depth lines idx).1 = true := by
  induction lines generalizing idx with
  | nil => rfl
  | cons line rest ih =>
    cases hline : pyParseInt line with
    | none => rw [runEP_cons_none c depth line rest idx hline]; rfl
    | some iters =>
      rw [runEP_cons_some c depth line rest idx iters hline]
      simp only [writesFlushed, epCycle, List.append_assoc,
        writesFlushed_replicate_work, List.cons_append, List.nil_append]
      simp [writesFlushed, flushBeforeRead, ih (idx + 2)]

lemma writesFlushed_runClock (c : Nat → Timespec) (lines : List String)
    (idx : Nat) : writesFlushed (runClock c lines idx).1 = true := by
  induction lines generalizing idx with
  | nil => rfl
  | cons line rest ih =>
    cases hline : pyParseInt line with
    | none => rw [runClock_cons_none c line rest idx hline]; rfl
    | some iters =>
      rw [runClock_cons_some c line rest idx iters hline]
      simp only [writesFlushed, clockCycle, List.append_assoc,
        writesFlushed_replicate_work, List.cons_append, List.nil_append]
      simp [writesFlushed, flushBeforeRead, ih (idx + iters.toNat + 2)]

lemma pyTrunc_nonneg (q : ℚ) (h : 0 ≤ q) : 0 ≤ pyTrunc q :=
  Int.tdiv_nonneg (Rat.num_nonneg.mpr h) (Int.natCast_nonneg q.den)

lemma epValue_nonneg (s e : ℚ) (h : s ≤ e) : 0 ≤ epValue s e := by
  refine pyTrunc_nonneg _ (mul_nonneg (sub_nonneg.mpr h) ?_)
  norm_num [NANOS, MICROS, MILLIS]

lemma fibValue_nonneg (s e : ℚ) (h : s ≤ e) : 0 ≤ fibValue s e := by
  refine pyTrunc_nonneg _ (mul_nonneg (by norm_num) (sub_nonneg.mpr h))

lemma clockValue_eq_toNs (s e : Timespec) :
    clockValue s e = e.toNs - s.toNs := by
  simp only [clockValue, Timespec.toNs]
  ring

lemma clockValue_nonneg (s e : Timespec) (h : s.toNs ≤ e.toNs) :
    0 ≤ clockValue s e := by
  rw [clockValue_eq_toNs]
  omega

lemma toString_int_toNat (v : Int) (h : 0 ≤ v) :
    toString v = toString v.toNat := by
  obtain ⟨m, rfl⟩ := Int.eq_ofNat_of_zero_le h
  rfl

lemma fib_unfold (n : Int) :
    fib n = if n > 1 then fib (n - 1) + fib (n - 2) else n + 1 := by
  rw [fib]
  split <;> rfl

lemma fibFuel_isSome (k : Nat) (n : Int) (h : n.toNat < k) :
    (fibFuel k n).isSome = true := by
  induction k generalizing n with
  | zero => omega
  | succ k ih =>
    by_cases hn : n > 1
    · obtain ⟨a, ha⟩ := Option.isSome_iff_exists.mp (ih (n - 1) (by omega))
      obtain ⟨b, hb⟩ := Option.isSome_iff_exists.mp (ih (n - 2) (by omega))
      simp [fibFuel, hn, ha, hb]
    · simp [fibFuel, hn]

lemma fibonacciFuel_isSome (k : Nat) (n : Int) (h0 : 0 ≤ n)
    (h : n.toNat < k) : (fibonacciFuel k n).isSome = true := by
  induction k generalizing n with
  | zero => omega
  | succ k ih =>
    by_cases hn : n = 0 ∨ n = 1
    · simp [fibonacciFuel, hn]
    · obtain ⟨a, ha⟩ :=
        Option.isSome_iff_exists.mp (ih (n - 1) (by omega) (by omega))
      obtain ⟨b, hb⟩ :=
        Option.isSome_iff_exists.mp (ih (n - 2) (by omega) (by omega))
      simp [fibonacciFuel, hn, ha, hb]

/-- Claim C1, counterexample to the claim as stated: clock.py runs its
while True loop around input(), so on an already-empty input stream the
process dies of an uncaught EOFError and its exit code is not 0. -/
theorem eof_clean_exit_cex :
    (runClock (fun _ => ⟨0, 0⟩) [] 0).2.code ≠ 0 := by
  decide

/-- Claim C1, amended: when the input stream ends after well-formed lines,
external_process.py terminates cleanly with exit code 0 (its for line in
sys.stdin loop just ends), while clock.py and fib.py terminate with an
uncaught EOFError from input(), hence a non-zero exit code. -/
theorem eof_exit_status (cQ : Nat → ℚ) (cT : Nat → Timespec) (cF : Nat → ℚ)
    (depth : Nat) (n : Int) (lines : List String) (i j k : Nat)
    (h : ∀ l ∈ lines, (pyParseInt l).isSome = true) :
    (runEP cQ depth lines i).2.code = 0 ∧
    (runClock cT lines j).2.code ≠ 0 ∧
    (runFib cF n lines k).2.code ≠ 0 := by
  refine ⟨?_, ?_, ?_⟩
  · rw [runEP_exit cQ depth lines i h]; rfl
  · rw [runClock_exit cT lines j h]; decide
  · rw [runFib_exit cF n lines k h]; decide

/-- Witness for eof_exit_status at one well-formed input line and constant
clocks. -/
theorem eof_exit_status_witness :
    (runEP (fun _ => 0) 5 ["1"] 0).2.code = 0 ∧
    (runClock (fun _ => ⟨0, 0⟩) ["1"] 0).2.code ≠ 0 ∧
    (runFib (fun _ => 0) 20 ["1"] 0).2.code ≠ 0 :=
  eof_exit_status (fun _ => 0) (fun _ => ⟨0, 0⟩) (fun _ => 0) 5 20 ["1"] 0 0 0
    (by decide)

/-- Claim C2, counterexample to the claim as stated: fib.py prints without
ever flushing stdout, so in its trace on two input lines the first written
line is not flushed before the next read. -/
theorem fib_unflushed_cex :
    writesFlushed (runFib (fun _ => 0) 1 ["0", "0"] 0).1 = false := by
  decide

/-- Claim C2, amended: on well-formed input every script produces exactly
one output line per cycle, and external_process.py and clock.py flush
stdout before the next read; fib.py produces its line but never flushes. -/
theorem cycle_output_and_flush (cQ : Nat → ℚ) (cT : Nat → Timespec)
    (cF : Nat → ℚ) (depth : Nat) (n : Int) (lines : List String) (i j k : Nat)
    (h : ∀ l ∈ lines, (pyParseInt l).isSome = true) :
    writeCount (runEP cQ depth lines i).1 = lines.length ∧
    writesFlushed (runEP cQ depth lines i).1 = true ∧
    writeCount (runClock cT lines j).1 = lines.length ∧
    writesFlushed (runClock cT lines j).1 = true ∧
    writeCount (runFib cF n lines k).1 = lines.length :=
  ⟨writeCount_runEP cQ depth lines i h, writesFlushed_runEP cQ depth lines i,
   writeCount_runClock cT lines j h, writesFlushed_runClock cT lines j,
   writeCount_runFib cF n lines k h⟩

/-- Witness for cycle_output_and_flush at two well-formed input lines and
constant clocks. -/
theorem cycle_output_and_flush_witness :
    writeCount (runEP (fun _ => 0) 5 ["0", "2"] 0).1 = ["0", "2"].length ∧
    writesFlushed (runEP (fun _ => 0) 5 ["0", "2"] 0).1 = true ∧
    writeCount (runClock (fun _ => ⟨0, 0⟩) ["0", "2"] 0).1 = ["0", "2"].length ∧
    writesFlushed (runClock (fun _ => ⟨0, 0⟩) ["0", "2"] 0).1 = true ∧
    writeCount (runFib (fun _ => 0) 20 ["0", "2"] 0).1 = ["0", "2"].length :=
  cycle_output_and_flush (fun _ => 0) (fun _ => ⟨0, 0⟩) (fun _ => 0) 5 20
    ["0", "2"] 0 0 0 (by decide)

/-- Claim C3: the fibonacci function of external_process.py has
f(0) = 1, f(1) = 1, f(2) = 2, f(5) = 8; the divergent fib of fib.py has
f(0) = 1, f(1) = 2; and both satisfy f(n) = f(n-1) + f(n-2) for n > 1. -/
theorem fibonacci_values :
    fibonacci 0 = 1 ∧ fibonacci 1 = 1 ∧ fibonacci 2 = 2 ∧ fibonacci 5 = 8 ∧
    fib 0 = 1 ∧ fib 1 = 2 ∧
    (∀ n : Nat, n > 1 → fibonacci n = fibonacci (n - 1) + fibonacci (n - 2)) ∧
    (∀ n : Int, n > 1 → fib n = fib (n - 1) + fib (n - 2)) := by
  refine ⟨rfl, rfl, rfl, rfl, ?_, ?_, ?_, ?_⟩
  · rw [fib_unfold]; norm_num
  · rw [fib_unfold]; norm_num
  · intro n hn
    match n, hn with
    | m + 2, _ => simp [fibonacci]
  · intro n hn
    rw [fib_unfold, if_pos hn]

/-- Witness for the recurrence components of fibonacci_values at n = 2 and
n = 3. -/
theorem fibonacci_values_witness :
    fibonacci 2 = fibonacci (2 - 1) + fibonacci (2 - 2) ∧
    fib 3 = fib (3 - 1) + fib (3 - 2) :=
  ⟨fibonacci_values.2.2.2.2.2.2.1 2 (by decide),
   fibonacci_values.2.2.2.2.2.2.2 3 (by decide)⟩

/-- Claim C4: a stdin line that does not parse as a base-10 integer makes
every script die of an uncaught ValueError from int(): the process exits
with a non-zero code and no output line is produced for that input. -/
theorem malformed_input_fatal (cQ : Nat → ℚ) (cT : Nat → Timespec)
    (cF : Nat → ℚ) (depth : Nat) (n : Int) (rest : List String) (i j k : Nat)
    (line : String) (h : pyParseInt line = none) :
    runEP cQ depth (line :: rest) i = ([Event.read line], PExit.parseError) ∧
    runClock cT (line :: rest) j = ([Event.read line], PExit.parseError) ∧
    runFib cF n (line :: rest) k = ([Event.read line], PExit.parseError) ∧
    PExit.parseError.code ≠ 0 ∧
    writesOf [Event.read line] = [] :=
  ⟨runEP_cons_none cQ depth line rest i h,
   runClock_cons_none cT line rest j h,
   runFib_cons_none cF n line rest k h,
   by decide, rfl⟩

/-- Witness for malformed_input_fatal at the spec's malformed line "abc". -/
theorem malformed_input_fatal_witness :
    runEP (fun _ => 0) 5 ["abc"] 0 = ([Event.read "abc"], PExit.parseError) ∧
    runClock (fun _ => ⟨0, 0⟩) ["abc"] 0 =
      ([Event.read "abc"], PExit.parseError) ∧
    runFib (fun _ => 0) 20 ["abc"] 0 = ([Event.read "abc"], PExit.parseError) ∧
    PExit.parseError.code ≠ 0 ∧
    writesOf [Event.read "abc"] = [] :=
  malformed_input_fatal (fun _ => 0) (fun _ => ⟨0, 0⟩) (fun _ => 0) 5 20 [] 0 0 0
    "abc" (by decide)

/-- Claim C5: for a non-negative iteration count and a monotone
non-decreasing clock, one cycle of each script writes exactly one output
line, and that line is the decimal representation of a non-negative
integer. -/
theorem valid_cycle_output (cQ : Nat → ℚ) (cT : Nat → Timespec) (cF : Nat → ℚ)
    (idx : Nat) (iters : Int) (_hiters : 0 ≤ iters)
    (hQ : ∀ a b : Nat, a ≤ b → cQ a ≤ cQ b)
    (hT : ∀ a b : Nat, a ≤ b → (cT a).toNs ≤ (cT b).toNs)
    (hF : ∀ a b : Nat, a ≤ b → cF a ≤ cF b) :
    (∃ m : Nat, writesOf (epCycle cQ idx iters) = [toString m]) ∧
    (∃ m : Nat, writesOf (clockCycle cT idx iters) = [toString m]) ∧
    (∃ m : Nat, writesOf (fibCycle cF idx iters) = [toString m]) := by
  refine ⟨⟨(epValue (cQ idx) (cQ (idx + 1))).toNat, ?_⟩,
    ⟨(clockValue (cT idx) (cT (idx + iters.toNat + 1))).toNat, ?_⟩,
    ⟨(fibValue (cF idx) (cF (idx + 1))).toNat, ?_⟩⟩
  · rw [writesOf_epCycle,
      toString_int_toNat _ (epValue_nonneg _ _ (hQ idx (idx + 1) (by omega)))]
  · rw [writesOf_clockCycle,
      toString_int_toNat _ (clockValue_nonneg _ _
        (hT idx (idx + iters.toNat + 1) (by omega)))]
  · rw [writesOf_fibCycle,
      toString_int_toNat _ (fibValue_nonneg _ _ (hF idx (idx + 1) (by omega)))]

/-- Witness for valid_cycle_output at iters = 3 and constant clocks. -/
theorem valid_cycle_output_witness :
    (∃ m : Nat, writesOf (epCycle (fun _ => 0) 0 3) = [toString m]) ∧
    (∃ m : Nat, writesOf (clockCycle (fun _ => ⟨0, 0⟩) 0 3) = [toString m]) ∧
    (∃ m : Nat, writesOf (fibCycle (fun _ => 0) 0 3) = [toString m]) :=
  valid_cycle_output (fun _ => 0) (fun _ => ⟨0, 0⟩) (fun _ => 0) 0 3
    (by decide) (fun _ _ _ => le_refl _) (fun _ _ _ => le_refl _)
    (fun _ _ _ => le_refl _)

/-- Claim C6: for iters = 0, one cycle of each script executes the workload
zero times and still writes exactly one output line holding a non-negative
integer (clock assumed monotone non-decreasing for the sign). -/
theorem iters_zero_cycle (cQ : Nat → ℚ) (cT : Nat → Timespec) (cF : Nat → ℚ)
    (idx : Nat)
    (hQ : ∀ a b : Nat, a ≤ b → cQ a ≤ cQ b)
    (hT : ∀ a b : Nat, a ≤ b → (cT a).toNs ≤ (cT b).toNs)
    (hF : ∀ a b : Nat, a ≤ b → cF a ≤ cF b) :
    workCount (epCycle cQ idx 0) = 0 ∧
    (∃ m : Nat, writesOf (epCycle cQ idx 0) = [toString m]) ∧
    workCount (clockCycle cT idx 0) = 0 ∧
    (∃ m : Nat, writesOf (clockCycle cT idx 0) = [toString m]) ∧
    workCount (fibCycle cF idx 0) = 0 ∧
    (∃ m : Nat, writesOf (fibCycle cF idx 0) = [toString m]) := by
  refine ⟨workCount_epCycle cQ idx 0,
    ⟨(epValue (cQ idx) (cQ (idx + 1))).toNat, ?_⟩,
    workCount_clockCycle cT idx 0,
    ⟨(clockValue (cT idx) (cT (idx + (0 : Int).toNat + 1))).toNat, ?_⟩,
    workCount_fibCycle cF idx 0,
    ⟨(fibValue (cF idx) (cF (idx + 1))).toNat, ?_⟩⟩
  · rw [writesOf_epCycle,
      toString_int_toNat _ (epValue_nonneg _ _ (hQ idx (idx + 1) (by omega)))]
  · rw [writesOf_clockCycle,
      toString_int_toNat _ (clockValue_nonneg _ _
        (hT idx (idx + (0 : Int).toNat + 1) (by omega)))]
  · rw [writesOf_fibCycle,
      toString_int_toNat _ (fibValue_nonneg _ _ (hF idx (idx + 1) (by omega)))]

/-- Witness for iters_zero_cycle at constant clocks. -/
theorem iters_zero_cycle_witness :
    workCount (epCycle (fun _ => 0) 0 0) = 0 ∧
    (∃ m : Nat, writesOf (epCycle (fun _ => 0) 0 0) = [toString m]) ∧
    workCount (clockCycle (fun _ => ⟨0, 0⟩) 0 0) = 0 ∧
    (∃ m : Nat, writesOf (clockCycle (fun _ => ⟨0, 0⟩) 0 0) = [toString m]) ∧
    workCount (fibCycle (fun _ => 0) 0 0) = 0 ∧
    (∃ m : Nat, writesOf (fibCycle (fun _ => 0) 0 0) = [toString m]) :=
  iters_zero_cycle (fun _ => 0) (fun _ => ⟨0, 0⟩) (fun _ => 0) 0
    (fun _ _ _ => le_refl _) (fun _ _ _ => le_refl _) (fun _ _ _ => le_refl _)

/-- Claim C7: whenever the end timestamp is at least the start timestamp
(monotone non-decreasing clock), the elapsed-nanoseconds value computed by
each script is non-negative. -/
theorem elapsed_nonneg (s e : ℚ) (sT eT : Timespec) (sf ef : ℚ)
    (h1 : s ≤ e) (h2 : sT.toNs ≤ eT.toNs) (h3 : sf ≤ ef) :
    0 ≤ epValue s e ∧ 0 ≤ clockValue sT eT ∧ 0 ≤ fibValue sf ef :=
  ⟨epValue_nonneg s e h1, clockValue_nonneg sT eT h2, fibValue_nonneg sf ef h3⟩

/-- Witness for elapsed_nonneg at concrete timestamps. -/
theorem elapsed_nonneg_witness :
    0 ≤ epValue 0 1 ∧ 0 ≤ clockValue ⟨0, 0⟩ ⟨0, 1⟩ ∧ 0 ≤ fibValue 0 1 :=
  elapsed_nonneg 0 1 ⟨0, 0⟩ ⟨0, 1⟩ 0 1 (by norm_num) (by decide) (by norm_num)

/-- Claim C8: a line parsing as a negative integer is accepted by every
script: the workload loop body runs zero times (range of a negative count
is empty), exactly one output line is still produced for the cycle, and
the process continues with the remaining input rather than erroring. -/
theorem negative_iters_accepted (cQ : Nat → ℚ) (cT : Nat → Timespec)
    (cF : Nat → ℚ) (depth : Nat) (n : Int) (rest : List String) (i j k : Nat)
    (line : String) (iters : Int) (h : pyParseInt line = some iters)
    (hneg : iters < 0) :
    workCount (epCycle cQ i iters) = 0 ∧
    (∃ s1, writesOf (epCycle cQ i iters) = [s1]) ∧
    workCount (clockCycle cT j iters) = 0 ∧
    (∃ s2, writesOf (clockCycle cT j iters) = [s2]) ∧
    workCount (fibCycle cF k iters) = 0 ∧
    (∃ s3, writesOf (fibCycle cF k iters) = [s3]) ∧
    (runEP cQ depth (line :: rest) i).2 = (runEP cQ depth rest (i + 2)).2 ∧
    (runClock cT (line :: rest) j).2 = (runClock cT rest (j + 2)).2 ∧
    (runFib cF n (line :: rest) k).2 = (runFib cF n rest (k + 2)).2 := by
  have htn : iters.toNat = 0 := by omega
  refine ⟨by rw [workCount_epCycle, htn], ⟨_, writesOf_epCycle cQ i iters⟩,
    by rw [workCount_clockCycle, htn], ⟨_, writesOf_clockCycle cT j iters⟩,
    by rw [workCount_fibCycle, htn], ⟨_, writesOf_fibCycle cF k iters⟩,
    ?_, ?_, ?_⟩
  · rw [runEP_cons_some cQ depth line rest i iters h]
  · rw [runClock_cons_some cT line rest j iters h, htn]
  · rw [runFib_cons_some cF n line rest k iters h]

/-- Witness for negative_iters_accepted at the input line "-3". -/
theorem negative_iters_accepted_witness :
    workCount (epCycle (fun _ => 0) 0 (-3)) = 0 ∧
    (∃ s1, writesOf (epCycle (fun _ => 0) 0 (-3)) = [s1]) ∧
    workCount (clockCycle (fun _ => ⟨0, 0⟩) 0 (-3)) = 0 ∧
    (∃ s2, writesOf (clockCycle (fun _ => ⟨0, 0⟩) 0 (-3)) = [s2]) ∧
    workCount (fibCycle (fun _ => 0) 0 (-3)) = 0 ∧
    (∃ s3, writesOf (fibCycle (fun _ => 0) 0 (-3)) = [s3]) ∧
    (runEP (fun _ => 0) 5 ["-3"] 0).2 = (runEP (fun _ => 0) 5 [] 2).2 ∧
    (runClock (fun _ => ⟨0, 0⟩) ["-3"] 0).2 =
      (runClock (fun _ => ⟨0, 0⟩) [] 2).2 ∧
    (runFib (fun _ => 0) 20 ["-3"] 0).2 = (runFib (fun _ => 0) 20 [] 2).2 :=
  negative_iters_accepted (fun _ => 0) (fun _ => ⟨0, 0⟩) (fun _ => 0) 5 20 []
    0 0 0 "-3" (-3) (by decide) (by decide)

/-- Claim C9: the value clock.py reports,
(end.tv_sec - start.tv_sec) * 1000000000 + (end.tv_nsec - start.tv_nsec),
equals the exact difference of the nanosecond encodings of the two
timespecs, for all integer fields, including end.tv_nsec < start.tv_nsec. -/
theorem clock_report_exact (s e : Timespec) :
    clockValue s e = e.toNs - s.toNs := by
  simp only [clockValue, Timespec.toNs]
  ring

/-- Claim C10: the fibonacci recursion of external_process.py terminates on
every non-negative integer argument, and the fib recursion of fib.py
terminates on every integer argument, witnessed by a sufficient fuel bound
for the fuel-indexed evaluators that mirror the Python recursion. -/
theorem fib_functions_terminate :
    (∀ n : Int, 0 ≤ n → ∃ k, (fibonacciFuel k n).isSome = true) ∧
    (∀ n : Int, ∃ k, (fibFuel k n).isSome = true) :=
  ⟨fun n h => ⟨n.toNat + 1, fibonacciFuel_isSome (n.toNat + 1) n h (by omega)⟩,
   fun n => ⟨n.toNat + 1, fibFuel_isSome (n.toNat + 1) n (by omega)⟩⟩

/-- Witness for fib_functions_terminate at n = 5 and n = -3. -/
theorem fib_functions_terminate_witness :
    (∃ k, (fibonacciFuel k 5).isSome = true) ∧
    (∃ k, (fibFuel k (-3)).isSome = true) :=
  ⟨fib_functions_terminate.1 5 (by decide), fib_functions_terminate.2 (-3)⟩

end Bench
